import Mathlib

/-!
Verification of the health-ai-assistant core against its specification.

Shallow embedding conventions used throughout this file:
* Python floats carrying glucose values are modelled as rationals (`ℚ`).
* Timestamps are modelled as minutes since an epoch (`ℕ`); the calendar
  date of a timestamp is `t / 1440` and its hour of day is `t % 1440 / 60`,
  mirroring pandas' `.dt.date` / `.dt.hour` accessors on the records.
* The Text Completion Service (`self.llm.invoke`) is modelled as a value of
  type `Except String String`: `Except.ok text` is a successful completion,
  `Except.error e` is a raised exception carrying its description `str(e)`.
  Functions that call the service take the service as an explicit argument
  `complete : String → Except String String` (prompt ↦ outcome) and return
  `Except String String`: an `Except.error` result models an uncaught
  exception propagating out of the Python function.
* Python string operations (`.lower()`, `.strip()`, `.upper()`, `in`,
  `.startswith`) are modelled with explicit character-list functions defined
  below (`pyLower`, `pyStrip`, `pyUpper`, `strContains`, `strStartsWith`).
-/

namespace HealthAI

/-! ## Basic string machinery (Python `in`, `startswith`, regex scans) -/

/-- `listPrefix p l` is true when `p` is a prefix of `l` (Python `startswith`). -/
def listPrefix : List Char → List Char → Bool
  | [], _ => true
  | _ :: _, [] => false
  | a :: as, b :: bs => a == b && listPrefix as bs

/-- `listInfix n h` is true when `n` occurs contiguously inside `h`
(Python's substring test `n in h`). -/
def listInfix (n : List Char) : List Char → Bool
  | [] => listPrefix n []
  | c :: cs => listPrefix n (c :: cs) || listInfix n cs

/-- Python substring containment `needle in haystack`. -/
def strContains (haystack needle : String) : Bool :=
  listInfix needle.data haystack.data

/-- Python `s.startswith(p)`. -/
def strStartsWith (s p : String) : Bool :=
  listPrefix p.data s.data

/-- Python `s.lower()` (characterwise on the code points). -/
def pyLower (s : String) : String := String.mk (s.data.map Char.toLower)

/-- Python `s.upper()` (characterwise on the code points). -/
def pyUpper (s : String) : String := String.mk (s.data.map Char.toUpper)

/-- Python `s.strip()`: whitespace removed from both ends. -/
def pyStrip (s : String) : String :=
  String.mk (((s.data.dropWhile Char.isWhitespace).reverse.dropWhile
    Char.isWhitespace).reverse)

/-- Digits of a decimal literal to its numeric value (Python `int`/`float`
on a regex group of digits). -/
def digitsToNat (ds : List Char) : ℕ :=
  ds.foldl (fun n c => 10 * n + (c.toNat - '0'.toNat)) 0

/-! ## `src/utils/helpers.py`: `get_glucose_status` (lines 215-231) -/

/-- Embedding of `get_glucose_status(level)` from `src/utils/helpers.py`:
the nested `if/elif` chain returning a `(status_text, color)` pair. -/
def get_glucose_status (level : ℚ) : String × String :=
  if level < 70 then ("🔴 Too Low - Hypoglycemia Risk", "red")
  else if level < 80 then ("⚠️ Low - Monitor Closely", "orange")
  else if level ≤ 130 then ("✅ Normal (Before Meal Range)", "green")
  else if level ≤ 180 then ("✅ Good (After Meal Range)", "green")
  else if level ≤ 250 then ("⚠️ High - Take Action", "orange")
  else ("🔴 Very High - Seek Medical Advice", "red")

/-! ## `src/agents/diabetes.py`: the glucose-logging feedback branch of
`DiabetesAgent.process_message` (lines 59-70) -/

/-- Embedding of the context-aware feedback appended by
`DiabetesAgent.process_message` after logging a glucose reading
(`src/agents/diabetes.py` lines 59-70): the same threshold chain as
`get_glucose_status`, selecting the advice sentence. -/
def diabetes_feedback (glucose_value : ℚ) : String :=
  if glucose_value < 70 then
    "🚨 **This is hypoglycemia (low blood sugar).** Treat immediately with 15g of fast-acting carbs (juice, glucose tablets, or candy). Recheck in 15 minutes. If symptoms persist, seek medical help."
  else if glucose_value < 80 then
    "⚠️ This is on the lower end. Consider a small snack to prevent hypoglycemia, especially if you're about to exercise or it's been a while since eating."
  else if glucose_value ≤ 130 then
    "✅ **Excellent!** This is in the normal **before-meal range (80-130 mg/dL)**. Keep up the great work! 💪"
  else if glucose_value ≤ 180 then
    "✅ **Good!** This is within the target **after-meal range (less than 180 mg/dL)**. Your glucose is well managed!"
  else if glucose_value ≤ 250 then
    "⚠️ **This is elevated.** Stay hydrated, avoid additional carbs for now, and consider light activity like a 15-minute walk. If consistently high, contact your healthcare provider."
  else
    "🚨 **This is very high.** Drink plenty of water, avoid food temporarily, and contact your healthcare provider if this persists or if you feel unwell (nausea, vomiting, confusion)."

/-! ## `src/agents/diabetes.py`: the interpretation branch of
`DiabetesAgent.get_glucose_summary` (lines 132-142) -/

/-- Embedding of the interpretation appended by
`DiabetesAgent.get_glucose_summary` as a function of the 7-day average
(`src/agents/diabetes.py` lines 133-142). -/
def summary_interpretation (avg : ℚ) : String :=
  if avg < 80 then
    "⚠️ Your average is **low**. Discuss with your healthcare provider about adjusting medications or meal timing to prevent hypoglycemia."
  else if avg ≤ 130 then
    "✅ **Excellent control!** Your average is in the ideal before-meal range (80-130 mg/dL). Keep up the great work!"
  else if avg ≤ 154 then
    "✅ **Good control!** Your average suggests well-managed glucose levels. Continue monitoring regularly."
  else if avg ≤ 180 then
    "⚠️ Your average is **slightly elevated**. Consider reviewing your diet, physical activity, and medication adherence with your healthcare provider."
  else
    "🚨 Your average is **high**. Please consult with your healthcare provider about adjusting your diabetes management plan."

/-! ## The six-band table as an abstract classification

The nested `if/elif` chains of `get_glucose_status` and of the logging branch
of `DiabetesAgent.process_message` share the same thresholds; `Band` names
the six cases and `glucoseBand` is the shared threshold chain. -/

/-- The six bands of section 4.3's table. -/
inductive Band
  | severeLow
  | low
  | normalPreMeal
  | normalPostMeal
  | high
  | severeHigh
deriving DecidableEq, Repr

/-- The shared threshold chain of `get_glucose_status`
(`src/utils/helpers.py` lines 220-231) and of the feedback branch of
`DiabetesAgent.process_message` (`src/agents/diabetes.py` lines 59-70),
with its branch outcomes named by `Band`. -/
def glucoseBand (level : ℚ) : Band :=
  if level < 70 then Band.severeLow
  else if level < 80 then Band.low
  else if level ≤ 130 then Band.normalPreMeal
  else if level ≤ 180 then Band.normalPostMeal
  else if level ≤ 250 then Band.high
  else Band.severeHigh

/-- The `(status_text, color)` pair `get_glucose_status` returns in each band. -/
def bandStatus : Band → String × String
  | Band.severeLow => ("🔴 Too Low - Hypoglycemia Risk", "red")
  | Band.low => ("⚠️ Low - Monitor Closely", "orange")
  | Band.normalPreMeal => ("✅ Normal (Before Meal Range)", "green")
  | Band.normalPostMeal => ("✅ Good (After Meal Range)", "green")
  | Band.high => ("⚠️ High - Take Action", "orange")
  | Band.severeHigh => ("🔴 Very High - Seek Medical Advice", "red")

/-- The feedback sentence `DiabetesAgent.process_message` appends in each band. -/
def bandFeedback : Band → String
  | Band.severeLow =>
    "🚨 **This is hypoglycemia (low blood sugar).** Treat immediately with 15g of fast-acting carbs (juice, glucose tablets, or candy). Recheck in 15 minutes. If symptoms persist, seek medical help."
  | Band.low =>
    "⚠️ This is on the lower end. Consider a small snack to prevent hypoglycemia, especially if you're about to exercise or it's been a while since eating."
  | Band.normalPreMeal =>
    "✅ **Excellent!** This is in the normal **before-meal range (80-130 mg/dL)**. Keep up the great work! 💪"
  | Band.normalPostMeal =>
    "✅ **Good!** This is within the target **after-meal range (less than 180 mg/dL)**. Your glucose is well managed!"
  | Band.high =>
    "⚠️ **This is elevated.** Stay hydrated, avoid additional carbs for now, and consider light activity like a 15-minute walk. If consistently high, contact your healthcare provider."
  | Band.severeHigh =>
    "🚨 **This is very high.** Drink plenty of water, avoid food temporarily, and contact your healthcare provider if this persists or if you feel unwell (nausea, vomiting, confusion)."

lemma get_glucose_status_band (v : ℚ) :
    get_glucose_status v = bandStatus (glucoseBand v) := by
  unfold get_glucose_status glucoseBand
  split_ifs <;> rfl

lemma diabetes_feedback_band (v : ℚ) :
    diabetes_feedback v = bandFeedback (glucoseBand v) := by
  unfold diabetes_feedback glucoseBand
  split_ifs <;> rfl

lemma glucoseBand_iff (v : ℚ) :
    (glucoseBand v = Band.severeLow ↔ v < 70) ∧
    (glucoseBand v = Band.low ↔ 70 ≤ v ∧ v < 80) ∧
    (glucoseBand v = Band.normalPreMeal ↔ 80 ≤ v ∧ v ≤ 130) ∧
    (glucoseBand v = Band.normalPostMeal ↔ 130 < v ∧ v ≤ 180) ∧
    (glucoseBand v = Band.high ↔ 180 < v ∧ v ≤ 250) ∧
    (glucoseBand v = Band.severeHigh ↔ 250 < v) := by
  unfold glucoseBand
  split_ifs <;>
    refine ⟨?_, ?_, ?_, ?_, ?_, ?_⟩ <;> simp <;>
    first
      | (constructor <;> linarith)
      | (intros; linarith)

/-! ## Claim C1 -/

/-- **C1.** The Diabetes Agent's band classification follows the fixed ordered
band table, first-match-wins: `v < 70` is severe-low; `70 ≤ v < 80` low;
`80 ≤ v ≤ 130` normal-pre-meal; `130 < v ≤ 180` normal-post-meal;
`180 < v ≤ 250` high; `v > 250` severe-high.  Both `get_glucose_status` and
the feedback branch of `DiabetesAgent.process_message` realize this table
(making the bands mutually exclusive and exhaustive: `glucoseBand` is a total
function into the six-element `Band`, and each band holds exactly on its
interval); the edge values 70, 80, 130, 180, 250 land in the claimed bands. -/
theorem diabetes_band_table (v : ℚ) :
    get_glucose_status v = bandStatus (glucoseBand v) ∧
    diabetes_feedback v = bandFeedback (glucoseBand v) ∧
    (glucoseBand v = Band.severeLow ↔ v < 70) ∧
    (glucoseBand v = Band.low ↔ 70 ≤ v ∧ v < 80) ∧
    (glucoseBand v = Band.normalPreMeal ↔ 80 ≤ v ∧ v ≤ 130) ∧
    (glucoseBand v = Band.normalPostMeal ↔ 130 < v ∧ v ≤ 180) ∧
    (glucoseBand v = Band.high ↔ 180 < v ∧ v ≤ 250) ∧
    (glucoseBand v = Band.severeHigh ↔ 250 < v) ∧
    glucoseBand 70 = Band.low ∧
    glucoseBand 80 = Band.normalPreMeal ∧
    glucoseBand 130 = Band.normalPreMeal ∧
    glucoseBand 180 = Band.normalPostMeal ∧
    glucoseBand 250 = Band.high := by
  obtain ⟨p1, p2, p3, p4, p5, p6⟩ := glucoseBand_iff v
  exact ⟨get_glucose_status_band v, diabetes_feedback_band v,
    p1, p2, p3, p4, p5, p6,
    by decide, by decide, by decide, by decide, by decide⟩

/-! ## Claim C2

The claim asserts that the interpretation branch of
`DiabetesAgent.get_glucose_summary`, as a function of the trailing-window
average, is the same band classification as the single-reading six-band
table.  The source uses a different, five-way table (thresholds 80, 130,
154, 180): it splits the single-reading band (130,180] at 154 and merges
the two bands below 80 and the two above 180.  Formally, if the two
classifications were the same function of the value (up to renaming of the
band labels), they would identify the same pairs of values; the
counterexample below exhibits averages 140 and 160 that the single-reading
table puts in one band (normal-post-meal) but the summary separates. -/

/-- The five interpretation outcomes of `get_glucose_summary`, named. -/
inductive SummaryBand
  | lowAvg
  | excellentControl
  | goodControl
  | slightlyElevated
  | highAvg
deriving DecidableEq, Repr

/-- The threshold chain of the interpretation branch of
`DiabetesAgent.get_glucose_summary` (`src/agents/diabetes.py` lines
133-142), with its branch outcomes named by `SummaryBand`. -/
def summaryBand (avg : ℚ) : SummaryBand :=
  if avg < 80 then SummaryBand.lowAvg
  else if avg ≤ 130 then SummaryBand.excellentControl
  else if avg ≤ 154 then SummaryBand.goodControl
  else if avg ≤ 180 then SummaryBand.slightlyElevated
  else SummaryBand.highAvg

/-- The interpretation sentence `get_glucose_summary` appends in each case. -/
def summaryBandText : SummaryBand → String
  | SummaryBand.lowAvg =>
    "⚠️ Your average is **low**. Discuss with your healthcare provider about adjusting medications or meal timing to prevent hypoglycemia."
  | SummaryBand.excellentControl =>
    "✅ **Excellent control!** Your average is in the ideal before-meal range (80-130 mg/dL). Keep up the great work!"
  | SummaryBand.goodControl =>
    "✅ **Good control!** Your average suggests well-managed glucose levels. Continue monitoring regularly."
  | SummaryBand.slightlyElevated =>
    "⚠️ Your average is **slightly elevated**. Consider reviewing your diet, physical activity, and medication adherence with your healthcare provider."
  | SummaryBand.highAvg =>
    "🚨 Your average is **high**. Please consult with your healthcare provider about adjusting your diabetes management plan."

lemma summary_interpretation_band (avg : ℚ) :
    summary_interpretation avg = summaryBandText (summaryBand avg) := by
  unfold summary_interpretation summaryBand
  split_ifs <;> rfl

/-- **C2, counterexample.**  The multi-day summary's interpretation of the
average is not the single-reading band classification: the single-reading
table puts 140 and 160 in the same band (normal-post-meal, 130 < v ≤ 180),
while the summary's interpretation distinguishes them ("Good control" for
140 at ≤ 154 versus "slightly elevated" for 160); likewise 60 and 75 fall in
distinct single-reading bands (severe-low versus low) but get the one "low"
summary interpretation.  So no renaming of band labels makes the two
classifications equal as functions of the value. -/
theorem summary_band_differs :
    glucoseBand 140 = glucoseBand 160 ∧
    summary_interpretation 140 ≠ summary_interpretation 160 ∧
    glucoseBand 60 ≠ glucoseBand 75 ∧
    summary_interpretation 60 = summary_interpretation 75 := by
  refine ⟨by decide, ?_, by decide, ?_⟩
  · rw [summary_interpretation_band 140, summary_interpretation_band 160]
    have h140 : summaryBand 140 = SummaryBand.goodControl := by decide
    have h160 : summaryBand 160 = SummaryBand.slightlyElevated := by decide
    rw [h140, h160]
    simp [summaryBandText]
  · rw [summary_interpretation_band 60, summary_interpretation_band 75]
    have h60 : summaryBand 60 = SummaryBand.lowAvg := by decide
    have h75 : summaryBand 75 = SummaryBand.lowAvg := by decide
    rw [h60, h75]

/-- **C2, amended.**  The multi-day glucose summary interprets the
trailing-window average with its own five-band table — average < 80 low;
80 ≤ average ≤ 130 excellent (before-meal range); 130 < average ≤ 154 good;
154 < average ≤ 180 slightly elevated; average > 180 high — which refines
the single-reading band (130,180] at 154 and merges the single-reading bands
below 80 and above 180; it agrees with the single-reading table only on the
boundaries 80, 130 and 180. -/
theorem summary_band_table (avg : ℚ) :
    summary_interpretation avg = summaryBandText (summaryBand avg) ∧
    (summaryBand avg = SummaryBand.lowAvg ↔ avg < 80) ∧
    (summaryBand avg = SummaryBand.excellentControl ↔ 80 ≤ avg ∧ avg ≤ 130) ∧
    (summaryBand avg = SummaryBand.goodControl ↔ 130 < avg ∧ avg ≤ 154) ∧
    (summaryBand avg = SummaryBand.slightlyElevated ↔ 154 < avg ∧ avg ≤ 180) ∧
    (summaryBand avg = SummaryBand.highAvg ↔ 180 < avg) := by
  refine ⟨summary_interpretation_band avg, ?_⟩
  unfold summaryBand
  split_ifs <;>
    refine ⟨?_, ?_, ?_, ?_, ?_⟩ <;> simp <;>
    first
      | (constructor <;> linarith)
      | (intros; linarith)

/-! ## `src/agents/router.py`: `RouterAgent.route` (lines 31-68)

The user message only reaches the completion service through the prompt, so
the route is a function of the service's outcome on that prompt; the outcome
is the explicit `Except String String` argument.  An uncaught Python
exception would be an `Except.error` result, but `route` returns `String`:
the embedding shows the `try/except` makes it total. -/

/-- The fixed label set of `RouterAgent.route` (`valid_routes`,
`src/agents/router.py` line 58). -/
def valid_routes : List String :=
  ["DIABETES_AGENT", "FITNESS_AGENT", "NUTRITION_AGENT", "GENERAL"]

/-- Embedding of `RouterAgent.route` (`src/agents/router.py` lines 50-68)
as a function of the completion service's outcome: on success the response
is stripped, uppercased and validated against `valid_routes`, any
non-member yielding `"GENERAL"`; on a raised exception the `except` branch
returns `"GENERAL"`. -/
def route (completion : Except String String) : String :=
  match completion with
  | Except.ok response =>
    let r := pyUpper (pyStrip response)
    if valid_routes.contains r then r else "GENERAL"
  | Except.error _ => "GENERAL"

/-! ## Claim C3 -/

/-- **C3.** `RouterAgent.route` always returns a member of the fixed label
set and never raises (it is total on every completion outcome, including
`Except.error`): when the completion service's response, trimmed and
uppercased, is not in the set, or when the service raises, the route is
`"GENERAL"`; when it is in the set, that label is returned. -/
theorem route_total_and_validated (completion : Except String String) :
    route completion ∈ valid_routes ∧
    (∀ e, completion = Except.error e → route completion = "GENERAL") ∧
    (∀ s, completion = Except.ok s →
      (pyUpper (pyStrip s) ∈ valid_routes → route completion = pyUpper (pyStrip s)) ∧
      (pyUpper (pyStrip s) ∉ valid_routes → route completion = "GENERAL")) := by
  refine ⟨?_, ?_, ?_⟩
  · cases completion with
    | error e => simp [route, valid_routes]
    | ok s =>
      simp only [route]
      split_ifs with h
      · simpa [List.contains_iff_exists_mem_beq, valid_routes] using h
      · simp [valid_routes]
  · intro e he
    subst he
    rfl
  · intro s hs
    subst hs
    constructor
    · intro hmem
      simp only [route]
      rw [if_pos]
      simpa [List.contains_iff_exists_mem_beq] using hmem
    · intro hmem
      simp only [route]
      rw [if_neg]
      simpa [List.contains_iff_exists_mem_beq] using hmem

/-- **C3, witness.**  The theorem applied to a concrete unrecognized
response and to a concrete service failure. -/
theorem route_total_and_validated_witness :
    route (Except.ok " diabetes_agent ") = "DIABETES_AGENT" ∧
    route (Except.ok "I think FITNESS fits best") = "GENERAL" ∧
    route (Except.error "timeout") = "GENERAL" :=
  ⟨((route_total_and_validated (Except.ok " diabetes_agent ")).2.2 _ rfl).1
      (by decide),
   ((route_total_and_validated (Except.ok "I think FITNESS fits best")).2.2 _ rfl).2
      (by decide),
   (route_total_and_validated (Except.error "timeout")).2.1 _ rfl⟩

/-! ## `src/agents/insights_coordinator.py`: keyword predicates

`should_coordinate` (lines 119-153) counts three keyword-domain sets on the
lowercased question; `coordinate_analysis` (lines 57-69) gates each Domain
Agent invocation on its own `any(word in question_lower for word in [...])`
test.  Each `any(...)` line below becomes a named Boolean predicate. -/

/-- The glucose/diabetes keyword test of `should_coordinate`
(`src/agents/insights_coordinator.py` line 139). -/
def gate_diabetes (question : String) : Bool :=
  ["glucose", "sugar", "diabetes"].any (fun w => strContains (pyLower question) w)

/-- The food/nutrition keyword test of `should_coordinate` (line 141). -/
def gate_nutrition (question : String) : Bool :=
  ["food", "meal", "eat", "nutrition"].any (fun w => strContains (pyLower question) w)

/-- The exercise keyword test of `should_coordinate` (line 143). -/
def gate_fitness (question : String) : Bool :=
  ["exercise", "workout", "activity"].any (fun w => strContains (pyLower question) w)

/-- The optimization/improvement keyword test of `should_coordinate`
(line 150). -/
def gate_optimize (question : String) : Bool :=
  ["improve", "better", "optimize", "reduce", "increase", "how can i"].any
    (fun w => strContains (pyLower question) w)

/-- Embedding of `InsightsCoordinatorAgent.should_coordinate`
(`src/agents/insights_coordinator.py` lines 119-153): true on questions
starting with "why" (case-insensitive); else true when at least 2 of the
three domain keyword tests hit; else true when the optimization keyword
test hits; else false. -/
def should_coordinate (question : String) : Bool :=
  if strStartsWith (pyLower question) "why" then true
  else
    let domain_count :=
      (if gate_diabetes question then 1 else 0) +
      (if gate_nutrition question then 1 else 0) +
      (if gate_fitness question then 1 else 0)
    if 2 ≤ domain_count then true
    else if gate_optimize question then true
    else false

/-- The diabetes-agent trigger of `coordinate_analysis`
(`src/agents/insights_coordinator.py` line 59): the condition under which
`agents['diabetes'].process_message` is invoked. -/
def coordinate_diabetes_trigger (question : String) : Bool :=
  ["glucose", "sugar", "blood", "diabetes", "high", "low"].any
    (fun w => strContains (pyLower question) w)

/-- The nutrition-agent trigger of `coordinate_analysis` (line 63). -/
def coordinate_nutrition_trigger (question : String) : Bool :=
  ["food", "meal", "eat", "diet", "nutrition", "carb"].any
    (fun w => strContains (pyLower question) w)

/-- The fitness-agent trigger of `coordinate_analysis` (line 67). -/
def coordinate_fitness_trigger (question : String) : Bool :=
  ["exercise", "workout", "activity", "tired", "energy"].any
    (fun w => strContains (pyLower question) w)

/-! ## Claim C5 -/

/-- **C5.** `should_coordinate` is a pure function of the message text which
returns true exactly when the message starts with "why" case-insensitively,
or at least 2 of the three fixed keyword-domain sets have a keyword in the
lowercased message, or an optimize/improve keyword occurs; on the three
quoted messages it returns true, false, true respectively. -/
theorem should_coordinate_spec (question : String) :
    (should_coordinate question = true ↔
      strStartsWith (pyLower question) "why" = true ∨
      2 ≤ ([gate_diabetes question, gate_nutrition question,
            gate_fitness question].count true) ∨
      gate_optimize question = true) ∧
    should_coordinate "Why is my glucose high?" = true ∧
    should_coordinate "I ate lunch" = false ∧
    should_coordinate "How can I improve my exercise and diet?" = true := by
  refine ⟨?_, by decide, by decide, by decide⟩
  unfold should_coordinate
  cases hw : strStartsWith (pyLower question) "why" <;>
    cases hd : gate_diabetes question <;>
    cases hn : gate_nutrition question <;>
    cases hf : gate_fitness question <;>
    cases ho : gate_optimize question <;>
    simp [hw, hd, hn, hf, ho]

/-! ## Claim C6 -/

/-- **C6, counterexample.**  The per-domain trigger predicates of
`coordinate_analysis` are not equal to the corresponding domain-counting
gate predicates of `should_coordinate`: the message "blood" trips the
diabetes trigger but not the diabetes gate (the trigger set adds "blood",
"high", "low"); "diet" and "tired" do the same for nutrition and fitness. -/
theorem coordinate_trigger_differs :
    coordinate_diabetes_trigger "blood" = true ∧ gate_diabetes "blood" = false ∧
    coordinate_nutrition_trigger "diet" = true ∧ gate_nutrition "diet" = false ∧
    coordinate_fitness_trigger "tired" = true ∧ gate_fitness "tired" = false := by
  decide

/-- **C6, amended.**  For each domain, `coordinate_analysis` invokes the
Domain Agent whenever the corresponding gate predicate of
`should_coordinate` matches, but through a strictly larger keyword set
(diabetes adds blood/high/low, nutrition adds diet/carb, fitness adds
tired/energy): gate-match implies trigger-match, not conversely. -/
theorem coordinate_trigger_superset (question : String) :
    (gate_diabetes question = true → coordinate_diabetes_trigger question = true) ∧
    (gate_nutrition question = true → coordinate_nutrition_trigger question = true) ∧
    (gate_fitness question = true → coordinate_fitness_trigger question = true) := by
  unfold gate_diabetes gate_nutrition gate_fitness
    coordinate_diabetes_trigger coordinate_nutrition_trigger
    coordinate_fitness_trigger
  simp only [List.any_cons, List.any_nil, Bool.or_eq_true, Bool.or_false]
  refine ⟨?_, ?_, ?_⟩ <;> intro h <;> tauto

/-- **C6, amended, witness.**  The amended theorem applied to the message
"my glucose after a meal and a workout", which matches all three gates. -/
theorem coordinate_trigger_superset_witness :
    coordinate_diabetes_trigger "my glucose after a meal and a workout" = true ∧
    coordinate_nutrition_trigger "my glucose after a meal and a workout" = true ∧
    coordinate_fitness_trigger "my glucose after a meal and a workout" = true :=
  ⟨(coordinate_trigger_superset "my glucose after a meal and a workout").1
      (by decide),
   (coordinate_trigger_superset "my glucose after a meal and a workout").2.1
      (by decide),
   (coordinate_trigger_superset "my glucose after a meal and a workout").2.2
      (by decide)⟩

/-! ## `src/utils/helpers.py`: `parse_glucose_input` (lines 28-47)

`re.search(r'(\d{2,3})\s*(?:mg/dl|mg/dL|mgdl)?', m)` matches at the leftmost
position where at least two consecutive digits start, the group taking up to
three digits greedily (the trailing unit is optional, so it never constrains
the match).  `re.search(r'glucose[:\s]+(\d{2,3})', m)` matches at the
leftmost position where the keyword is followed by one or more colon or
whitespace characters and then at least two digits; greediness is exact here
because no separator character is a digit.  `re.IGNORECASE` is modelled by
scanning the lowercased message (digits and separators are unaffected). -/

/-- Leftmost match of `\d{2,3}`: the first position where two consecutive
digits start, taking up to three digits greedily. -/
def findNum2or3 : List Char → Option (List Char)
  | [] => none
  | c :: cs =>
    let run := (c :: cs).takeWhile Char.isDigit
    if 2 ≤ run.length then some (run.take 3) else findNum2or3 cs

/-- Leftmost match of `kw[:\s]+(\d{2,3})`: the keyword, then one or more
colon/whitespace separators, then at least two digits (group of up to
three). -/
def findKwNum (kw : List Char) : List Char → Option (List Char)
  | [] => none
  | c :: cs =>
    if listPrefix kw (c :: cs) then
      let rest := (c :: cs).drop kw.length
      let seps := rest.takeWhile (fun ch => ch == ':' || ch.isWhitespace)
      let run := (rest.drop seps.length).takeWhile Char.isDigit
      if 1 ≤ seps.length ∧ 2 ≤ run.length then some (run.take 3)
      else findKwNum kw cs
    else findKwNum kw cs

/-- Embedding of `parse_glucose_input(user_message)` from
`src/utils/helpers.py` lines 28-47: the three patterns are tried in order;
a pattern whose first match has a value outside [50, 400] contributes
nothing and the next pattern is tried; values are Python floats (`ℚ`). -/
def parse_glucose_input (user_message : String) : Option ℚ :=
  let ml := (pyLower user_message).data
  let try1 : Option ℚ := (findNum2or3 ml).bind (fun ds =>
    let value : ℚ := (digitsToNat ds : ℕ)
    if 50 ≤ value ∧ value ≤ 400 then some value else none)
  match try1 with
  | some v => some v
  | none =>
    let try2 : Option ℚ := (findKwNum "glucose".data ml).bind (fun ds =>
      let value : ℚ := (digitsToNat ds : ℕ)
      if 50 ≤ value ∧ value ≤ 400 then some value else none)
    match try2 with
    | some v => some v
    | none => (findKwNum "blood sugar".data ml).bind (fun ds =>
        let value : ℚ := (digitsToNat ds : ℕ)
        if 50 ≤ value ∧ value ≤ 400 then some value else none)

/-! ## `src/utils/helpers.py`: `parse_exercise_input` (lines 72-113) -/

/-- Leftmost match of `(\d+)\s*(?:min|minute|minutes)`: one or more digits
(greedy, exact since no digit follows the run), optional whitespace, then
the literal "min" (the first alternative of the group; the longer
alternatives add nothing to the existence of a match). -/
def findDurationMin : List Char → Option ℕ
  | [] => none
  | c :: cs =>
    let run := (c :: cs).takeWhile Char.isDigit
    if 1 ≤ run.length ∧
        listPrefix "min".data (((c :: cs).drop run.length).dropWhile
          Char.isWhitespace) then
      some (digitsToNat run)
    else findDurationMin cs

/-- Leftmost match of `for\s*(\d+)\s*(?:min|minute|minutes)` — the second
duration pattern of `parse_exercise_input`; only consulted when the first
finds nothing (and then it can never match, since any of its matches
contains a match of the first pattern). -/
def findDurationForMin : List Char → Option ℕ
  | [] => none
  | c :: cs =>
    if listPrefix "for".data (c :: cs) then
      let rest := ((c :: cs).drop 3).dropWhile Char.isWhitespace
      let run := rest.takeWhile Char.isDigit
      if 1 ≤ run.length ∧
          listPrefix "min".data ((rest.drop run.length).dropWhile
            Char.isWhitespace) then
        some (digitsToNat run)
      else findDurationForMin cs
    else findDurationForMin cs

/-- The fixed activity vocabulary of `parse_exercise_input`
(`src/utils/helpers.py` lines 94-102), in source order. -/
def exercise_activities : List String :=
  ["run", "running", "jog", "jogging",
   "walk", "walking",
   "yoga", "pilates",
   "swim", "swimming",
   "bike", "biking", "cycling",
   "gym", "workout", "exercise",
   "strength", "weights", "lifting"]

/-- Embedding of `parse_exercise_input(user_message)` from
`src/utils/helpers.py` lines 72-113: the lowercased message is scanned for
a duration (two regex patterns, first match wins) and, independently, for
the first activity keyword occurring as a substring; the pair is returned
only if both are found (`if activity and duration`, so a duration of 0 is
falsy and also yields no match). -/
def parse_exercise_input (user_message : String) : Option (String × ℕ) :=
  let message := (pyLower user_message).data
  let duration : Option ℕ :=
    match findDurationMin message with
    | some d => some d
    | none => findDurationForMin message
  let activity : Option String :=
    exercise_activities.find? (fun act => listInfix act.data message)
  match activity, duration with
  | some act, some d => if d = 0 then none else some (act, d)
  | _, _ => none

/-! ## Claim C7

The general contract holds in the source: a match requires both a duration
and a vocabulary activity.  But the claim's (and the source docstring's)
flagship example fails: the vocabulary contains "run" and "running" but not
"ran", so "I ran for 30 minutes" — the first example in the docstring of
`parse_exercise_input` — contains no activity keyword and parses as
no-match, not as ("run", 30). -/

/-- **C7.** (code bug) "I ran" and "30 minutes" yield no match as the claim
says, but "I ran for 30 minutes" also yields no match — contradicting the
claim and the function's own docstring, which lists it as a parsed example —
because no activity keyword of the fixed vocabulary occurs in it; the
vocabulary does work when a keyword is present: "I went running for 30
minutes" yields ("run", 30) (the substring "run" is found first). -/
theorem parse_exercise_requires_both :
    parse_exercise_input "I ran" = none ∧
    parse_exercise_input "30 minutes" = none ∧
    parse_exercise_input "I ran for 30 minutes" = none ∧
    parse_exercise_input "I went running for 30 minutes" = some ("run", 30) := by
  decide

/-! ## `src/app.py`: the glucose branch of `smart_response` (lines 337-350)

`smart_response` runs `parse_glucose_input` on every incoming message; if it
returns a value (all parsed values lie in [50,400], so Python's truthiness
test `if glucose:` is equivalent to a successful parse), the Diabetes Agent
is invoked with `f"Log glucose: {glucose}"`, whose logging branch re-parses
that string and commits the result via `add_glucose_reading`. -/

/-- Python `repr` of the float interpolated by the f-string
`f"Log glucose: {glucose}"`: every parsed glucose value is integral, so it
prints with a trailing ".0". -/
def pyFloatRepr (q : ℚ) : String :=
  if q.den = 1 then toString q.num ++ ".0" else toString q

/-- The value committed to the Log Store when a message reaches
`smart_response`: the glucose branch of `smart_response` (`src/app.py`
lines 341-350) composed with the logging branch of
`DiabetesAgent.process_message` (`src/agents/diabetes.py` lines 46-50),
which re-parses the forwarded `"Log glucose: …"` message and calls
`add_glucose_reading` with the result. -/
def smart_response_logged_glucose (user_message : String) : Option ℚ :=
  match parse_glucose_input user_message with
  | some glucose => parse_glucose_input ("Log glucose: " ++ pyFloatRepr glucose)
  | none => none

/-! ## Claim C10 -/

/-- **C10.** Whenever the leftmost `\d{2,3}` match in a message has a value
in [50, 400], `parse_glucose_input` returns that value — the first regex
alternative requires only bare digits, with no glucose keyword and no unit
anywhere in sight (the keyword patterns are only consulted when the bare
pattern contributes nothing); in particular "I walked for 100 minutes"
parses as glucose 100, and since the dispatcher `smart_response` runs this
parser on every message, that message gets logged as a glucose reading of
100. -/
theorem glucose_parser_bare_digits :
    (∀ (msg : String) (ds : List Char),
      findNum2or3 (pyLower msg).data = some ds →
      50 ≤ (digitsToNat ds : ℚ) →
      (digitsToNat ds : ℚ) ≤ 400 →
      parse_glucose_input msg = some ((digitsToNat ds : ℚ))) ∧
    parse_glucose_input "I walked for 100 minutes" = some 100 ∧
    smart_response_logged_glucose "I walked for 100 minutes" = some 100 := by
  refine ⟨?_, by decide, by decide⟩
  intro msg ds h h1 h2
  have hn1 : 50 ≤ digitsToNat ds := by exact_mod_cast h1
  have hn2 : digitsToNat ds ≤ 400 := by exact_mod_cast h2
  simp [parse_glucose_input, h, h1, h2]
  rw [if_pos ⟨hn1, hn2⟩]

/-- **C10, witness.**  The theorem's universally quantified part applied to
the concrete message "I walked for 100 minutes" (leftmost digit match
"100", value 100 ∈ [50,400]). -/
theorem glucose_parser_bare_digits_witness :
    parse_glucose_input "I walked for 100 minutes" =
      some ((digitsToNat ['1', '0', '0'] : ℚ)) :=
  glucose_parser_bare_digits.1 "I walked for 100 minutes" ['1', '0', '0']
    (by decide) (by decide) (by decide)

/-! ## `src/agents/pattern_analysis.py`: data model

The analyses consume rows from the Log Store; a row's timestamp enters them
only through pandas' `.dt.date`, `.dt.hour`, and the meal-window comparisons
in whole hours, so timestamps are minutes since an epoch.  The meal rows'
`carbs` column is carried into `meal_impacts` but never used by the
rendered finding, so it is dropped here. -/

/-- A glucose reading row (`glucose_level`, `timestamp`). -/
structure GlucoseReading where
  timestamp : ℕ
  glucose_level : ℚ
deriving DecidableEq, Repr

/-- A meal row (`meal_name`, `timestamp`). -/
structure MealRecord where
  timestamp : ℕ
  meal_name : String
deriving DecidableEq, Repr

/-- An exercise row (`timestamp`). -/
structure ExerciseRecord where
  timestamp : ℕ
deriving DecidableEq, Repr

/-- pandas `.dt.date` on a minutes-since-epoch timestamp. -/
def dateOf (t : ℕ) : ℕ := t / 1440

/-- pandas `.dt.hour` on a minutes-since-epoch timestamp. -/
def hourOf (t : ℕ) : ℕ := t % 1440 / 60

/-- pandas `.mean()` of a column (`NaN` for an empty column is handled at
each call site; on an empty list this returns `0/0 = 0`). -/
def mean (xs : List ℚ) : ℚ := xs.sum / (xs.length : ℚ)

/-! ## `PatternAnalysisAgent._analyze_exercise_glucose_correlation`
(lines 102-139) -/

/-- The payload of the exercise–glucose finding: the two partition means
(the rendered string derives the difference, direction and strength from
them). -/
structure ExerciseGlucoseFinding where
  exMean : ℚ
  nonExMean : ℚ
deriving DecidableEq, Repr

/-- The `{"Strong" if abs(difference) > 20 else "Moderate"}` selector of the
rendered finding (`src/agents/pattern_analysis.py` line 137). -/
def exercise_glucose_strong (f : ExerciseGlucoseFinding) : Bool :=
  decide (20 < |f.nonExMean - f.exMean|)

/-- Embedding of `_analyze_exercise_glucose_correlation` (lines 102-139):
requires ≥ 3 exercise rows; partitions glucose readings by whether their
calendar date is an exercise date; `pd.isna(mean)` is exactly "the
partition is empty"; a finding is produced when the absolute difference of
the partition means exceeds 10. -/
def analyze_exercise_glucose_correlation (glucose : List GlucoseReading)
    (exercise : List ExerciseRecord) : Option ExerciseGlucoseFinding :=
  if exercise.length < 3 then none
  else
    let exercise_dates := exercise.map (fun e => dateOf e.timestamp)
    let onEx := glucose.filter
      (fun g => exercise_dates.contains (dateOf g.timestamp))
    let offEx := glucose.filter
      (fun g => !exercise_dates.contains (dateOf g.timestamp))
    if onEx.isEmpty || offEx.isEmpty then none
    else
      let exercise_days_glucose := mean (onEx.map GlucoseReading.glucose_level)
      let non_exercise_days_glucose :=
        mean (offEx.map GlucoseReading.glucose_level)
      let difference := non_exercise_days_glucose - exercise_days_glucose
      if 10 < |difference| then
        some ⟨exercise_days_glucose, non_exercise_days_glucose⟩
      else none

/-- The f-string of the exercise–glucose finding (line 133); the `:.0f`
numeric rounding of the source is abstracted by `toString`. -/
def render_exercise_glucose (f : ExerciseGlucoseFinding) : String :=
  "🏃 **Exercise-Glucose Correlation**:\nYour glucose is " ++
    toString |f.nonExMean - f.exMean| ++ " mg/dL " ++
    (if 0 < f.nonExMean - f.exMean then "lower" else "higher") ++
    " on days you exercise.\n- Exercise days: " ++ toString f.exMean ++
    " mg/dL average\n- Non-exercise days: " ++ toString f.nonExMean ++
    " mg/dL average\n- Pattern strength: " ++
    (if exercise_glucose_strong f then "Strong" else "Moderate")

/-! ## `PatternAnalysisAgent._analyze_meal_glucose_correlation`
(lines 141-186) -/

/-- The payload of the meal–glucose finding: the top-2 and bottom-2
`(meal_name, post_glucose)` pairs. -/
structure MealGlucoseFinding where
  high_impact : List (String × ℚ)
  low_impact : List (String × ℚ)
deriving DecidableEq, Repr

/-- Embedding of `_analyze_meal_glucose_correlation` (lines 141-186):
requires ≥ 5 meal rows; a meal's impact is the mean of the glucose readings
strictly between one and three hours after it, recorded only when at least
one such reading exists; requires ≥ 3 meals with an impact; reports the
top-2 and bottom-2 by impact (`nlargest`/`nsmallest`; their tie order is
abstracted by a stable sort on the impact value). -/
def analyze_meal_glucose_correlation (glucose : List GlucoseReading)
    (meals : List MealRecord) : Option MealGlucoseFinding :=
  if meals.length < 5 then none
  else
    let meal_impacts := meals.filterMap (fun m =>
      let post_meal_readings := glucose.filter (fun g =>
        m.timestamp + 60 < g.timestamp && g.timestamp < m.timestamp + 180)
      if post_meal_readings.isEmpty then none
      else some (m.meal_name,
        mean (post_meal_readings.map GlucoseReading.glucose_level)))
    if meal_impacts.length < 3 then none
    else
      let high_impact :=
        (meal_impacts.insertionSort (fun a b => b.2 ≤ a.2)).take 2
      let low_impact :=
        (meal_impacts.insertionSort (fun a b => a.2 ≤ b.2)).take 2
      some ⟨high_impact, low_impact⟩

/-- The f-string of the meal–glucose finding (line 182). -/
def render_meal_glucose (f : MealGlucoseFinding) : String :=
  "🍽️ **Meal-Glucose Impact**:\nYour glucose responds differently to different meals:\n- Higher spikes: " ++
    String.intercalate ", " (f.high_impact.map Prod.fst) ++ " (avg " ++
    toString (mean (f.high_impact.map Prod.snd)) ++
    " mg/dL)\n- Lower spikes: " ++
    String.intercalate ", " (f.low_impact.map Prod.fst) ++ " (avg " ++
    toString (mean (f.low_impact.map Prod.snd)) ++
    " mg/dL)\n- Recommendation: Stick to meals similar to " ++
    (match f.low_impact with | [] => "" | p :: _ => p.1) ++
    " for better control"

/-! ## `PatternAnalysisAgent._analyze_time_patterns` (lines 188-221) -/

/-- The payload of the time-of-day finding: the named highest and lowest
bucket with their means. -/
structure TimeFinding where
  highest : String × ℚ
  lowest : String × ℚ
deriving DecidableEq, Repr

/-- Embedding of `_analyze_time_patterns` (lines 188-221): requires ≥ 10
glucose readings; buckets by hour into Morning [6,11], Afternoon [12,17],
Evening [18,23]; empty buckets are dropped (`pd.isna`); Python's
`max(times, key=times.get)` / `min(...)` keep the first extremal entry in
insertion order, as the folds here do; a finding needs a max−min spread
above 20. -/
def analyze_time_patterns (glucose : List GlucoseReading) :
    Option TimeFinding :=
  if glucose.length < 10 then none
  else
    let bucket := fun (lo hi : ℕ) =>
      (glucose.filter (fun g => lo ≤ hourOf g.timestamp &&
        hourOf g.timestamp ≤ hi)).map GlucoseReading.glucose_level
    let morning := bucket 6 11
    let afternoon := bucket 12 17
    let evening := bucket 18 23
    let times : List (String × ℚ) :=
      [("Morning", morning), ("Afternoon", afternoon),
       ("Evening", evening)].filterMap (fun p =>
        if p.2.isEmpty then none else some (p.1, mean p.2))
    match times with
    | [] => none
    | t :: ts =>
      let highest_time := ts.foldl (fun acc p => if acc.2 < p.2 then p else acc) t
      let lowest_time := ts.foldl (fun acc p => if p.2 < acc.2 then p else acc) t
      if 20 < highest_time.2 - lowest_time.2 then
        some ⟨highest_time, lowest_time⟩
      else none

/-- The f-string of the time-of-day finding (line 214). -/
def render_time_patterns (f : TimeFinding) : String :=
  "⏰ **Time-of-Day Pattern**:\nYour glucose varies by time of day:\n- " ++
    f.highest.1 ++ ": " ++ toString f.highest.2 ++ " mg/dL (highest)\n- " ++
    f.lowest.1 ++ ": " ++ toString f.lowest.2 ++ " mg/dL (lowest)\n- Difference: " ++
    toString (f.highest.2 - f.lowest.2) ++ " mg/dL\n- Focus on managing " ++
    pyLower f.highest.1 ++ " levels"

/-! ## `PatternAnalysisAgent._analyze_exercise_timing` (lines 223-272) -/

/-- The payload of the exercise-timing finding. -/
structure TimingFinding where
  better_time : String
  better_avg : ℚ
  worse_avg : ℚ
deriving DecidableEq, Repr

/-- Embedding of `_analyze_exercise_timing` (lines 223-272): requires ≥ 3
exercise rows; splits exercises into Morning [5,11] and Evening [17,21] by
hour; for each non-empty side computes mean glucose on that side's dates.
Python's truthiness test `if morning_glucose and evening_glucose and
abs(...) > 15` makes a `None` side, a `0.0` mean and a `NaN` mean (empty
date filter — NaN is truthy but compares false) all produce "no finding";
with `mean [] = 0` here, the `≠ 0` tests collapse exactly those cases. -/
def analyze_exercise_timing (glucose : List GlucoseReading)
    (exercise : List ExerciseRecord) : Option TimingFinding :=
  if exercise.length < 3 then none
  else
    let morning_exercises := exercise.filter (fun e =>
      5 ≤ hourOf e.timestamp && hourOf e.timestamp ≤ 11)
    let evening_exercises := exercise.filter (fun e =>
      17 ≤ hourOf e.timestamp && hourOf e.timestamp ≤ 21)
    if morning_exercises.isEmpty && evening_exercises.isEmpty then none
    else
      let glucoseOnDates := fun (dates : List ℕ) =>
        (glucose.filter (fun g => dates.contains (dateOf g.timestamp))).map
          GlucoseReading.glucose_level
      let morning_glucose : Option ℚ :=
        if morning_exercises.isEmpty then none
        else some (mean (glucoseOnDates
          (morning_exercises.map (fun e => dateOf e.timestamp))))
      let evening_glucose : Option ℚ :=
        if evening_exercises.isEmpty then none
        else some (mean (glucoseOnDates
          (evening_exercises.map (fun e => dateOf e.timestamp))))
      match morning_glucose, evening_glucose with
      | some mg, some eg =>
        if mg ≠ 0 ∧ eg ≠ 0 ∧ 15 < |mg - eg| then
          some ⟨if mg < eg then "morning" else "evening", min mg eg, max mg eg⟩
        else none
      | _, _ => none

/-- The f-string of the exercise-timing finding (line 266). -/
def render_exercise_timing (f : TimingFinding) : String :=
  "🕐 **Exercise Timing Insight**:\nYour " ++ f.better_time ++
    " workouts show better results:\n- " ++ f.better_time ++ " exercise: " ++
    toString f.better_avg ++ " mg/dL average glucose\n- " ++
    (if f.better_time == "morning" then "Evening" else "Morning") ++
    " exercise: " ++ toString f.worse_avg ++
    " mg/dL average\n- Recommendation: Try exercising in the " ++
    f.better_time ++ " more often"

/-! ## `PatternAnalysisAgent.analyze_patterns` (lines 32-100) and
`get_specific_insight` (lines 274-295) -/

/-- The `patterns` list of `analyze_patterns` (lines 39-73): the rendered
findings that passed their gates, in source order. -/
def pattern_findings (glucose : List GlucoseReading) (meals : List MealRecord)
    (exercise : List ExerciseRecord) : List String :=
  (match analyze_exercise_glucose_correlation glucose exercise with
   | some f => [render_exercise_glucose f]
   | none => []) ++
  (match analyze_meal_glucose_correlation glucose meals with
   | some f => [render_meal_glucose f]
   | none => []) ++
  (match analyze_time_patterns glucose with
   | some f => [render_time_patterns f]
   | none => []) ++
  (match analyze_exercise_timing glucose exercise with
   | some f => [render_exercise_timing f]
   | none => [])

/-- The synthesis prompt of `analyze_patterns` (lines 82-92). -/
def pattern_prompt (analysis_text : String) : String :=
  "You are a health pattern analyst. Here are the patterns I found in the user's data:\n\n" ++
    analysis_text ++
    "\n\nCreate a friendly, actionable summary that:\n1. Highlights the most important patterns\n2. Provides specific, personalized recommendations\n3. Uses the user's actual data to be credible\n4. Sounds encouraging and supportive\n\nKeep it concise but impactful."

/-- Embedding of `PatternAnalysisAgent.analyze_patterns` (lines 32-100).
The final `self.llm.invoke(messages)` on line 99 is **not** inside a
`try/except`, so the service outcome is returned as-is: a service failure
is an `Except.error` escaping the function. -/
def analyze_patterns (glucose : List GlucoseReading) (meals : List MealRecord)
    (exercise : List ExerciseRecord)
    (complete : String → Except String String) : Except String String :=
  if glucose.isEmpty then
    Except.ok "Not enough data yet. Log more glucose readings to see patterns."
  else
    let patterns := pattern_findings glucose meals exercise
    if patterns.isEmpty then
      Except.ok "I need more data to find meaningful patterns. Keep logging for at least 7 days!"
    else complete (pattern_prompt (String.intercalate "\n\n" patterns))

/-- The prompt of `get_specific_insight` (lines 281-287). -/
def insight_prompt (patterns_text question : String) : String :=
  "Based on this user's health patterns:\n\n" ++ patterns_text ++
    "\n\nUser's question: " ++ question ++
    "\n\nProvide a specific, actionable answer using their actual data. Be direct and helpful."

/-- Embedding of `PatternAnalysisAgent.get_specific_insight` (lines
274-295): reruns `analyze_patterns` (any exception it raises propagates),
then invokes the completion service with no `try/except` (line 294). -/
def get_specific_insight (glucose : List GlucoseReading)
    (meals : List MealRecord) (exercise : List ExerciseRecord)
    (complete : String → Except String String) (question : String) :
    Except String String :=
  match analyze_patterns glucose meals exercise complete with
  | Except.ok patterns_text => complete (insight_prompt patterns_text question)
  | Except.error e => Except.error e

/-! ## The guarded completion call sites

In contrast to `analyze_patterns`, the narrative completion calls in
`DiabetesAgent.process_message` (`src/agents/diabetes.py` lines 92-96),
`FitnessAgent.process_message` (`src/agents/fitness.py` lines 127-131),
`NutritionAgent.process_message` (`src/agents/nutrition.py` lines 136-140)
and `InsightsCoordinatorAgent.coordinate_analysis`
(`src/agents/insights_coordinator.py` lines 107-117) sit inside
`try/except` and map a failure to a templated apology string embedding
`str(e)`: their results are total `String`s, never a propagated
exception. -/

/-- The `try/except` around the narrative completion call of
`DiabetesAgent.process_message` (lines 92-96). -/
def diabetes_narrative (completion : Except String String) : String :=
  match completion with
  | Except.ok response => response
  | Except.error e =>
    "I'm having trouble processing that right now. Error: " ++ e

/-- The `try/except` around the narrative completion call of
`FitnessAgent.process_message` (`src/agents/fitness.py` lines 127-131). -/
def fitness_narrative (completion : Except String String) : String :=
  match completion with
  | Except.ok response => response
  | Except.error e =>
    "I'm having trouble processing that right now. Error: " ++ e

/-- The `try/except` around the narrative completion call of
`NutritionAgent.process_message` (`src/agents/nutrition.py` lines
136-140). -/
def nutrition_narrative (completion : Except String String) : String :=
  match completion with
  | Except.ok response => response
  | Except.error e =>
    "I'm having trouble processing that right now. Error: " ++ e

/-- The `try/except` around the synthesis completion call of
`InsightsCoordinatorAgent.coordinate_analysis` (lines 107-117), with the
multi-agent disclosure footer on success. -/
def coordinate_synthesis (completion : Except String String) : String :=
  match completion with
  | Except.ok response =>
    response ++
      "\n\n---\n*💡 This response coordinated insights from multiple specialized agents with your personal health data.*"
  | Except.error e =>
    "I'm having trouble coordinating the analysis. Error: " ++ e

/-! ## Claim C8 -/

/-- **C8.** The exercise–glucose correlation: with fewer than 3 exercise
records there is no finding; with at least 3, and both date-partitions of
the readings (exercise-day vs non-exercise-day) non-empty, the analysis
computes the mean glucose of each partition and produces a finding exactly
when the absolute difference of the two means exceeds 10 — the finding then
carrying those two means — and its qualifier is "Strong" exactly when the
absolute difference exceeds 20 ("Moderate" otherwise).  An absolute
difference of 8 therefore yields no finding (see the witness). -/
theorem exercise_glucose_correlation_spec (glucose : List GlucoseReading)
    (exercise : List ExerciseRecord) :
    (exercise.length < 3 →
      analyze_exercise_glucose_correlation glucose exercise = none) ∧
    (∀ onEx offEx : List GlucoseReading,
      onEx = glucose.filter (fun g =>
        (exercise.map (fun e => dateOf e.timestamp)).contains
          (dateOf g.timestamp)) →
      offEx = glucose.filter (fun g =>
        !(exercise.map (fun e => dateOf e.timestamp)).contains
          (dateOf g.timestamp)) →
      3 ≤ exercise.length → onEx ≠ [] → offEx ≠ [] →
      analyze_exercise_glucose_correlation glucose exercise =
        (if 10 < |mean (offEx.map GlucoseReading.glucose_level) -
            mean (onEx.map GlucoseReading.glucose_level)| then
          some ⟨mean (onEx.map GlucoseReading.glucose_level),
            mean (offEx.map GlucoseReading.glucose_level)⟩
        else none)) ∧
    (∀ f : ExerciseGlucoseFinding,
      exercise_glucose_strong f = true ↔ 20 < |f.nonExMean - f.exMean|) := by
  refine ⟨?_, ?_, ?_⟩
  · intro h
    simp [analyze_exercise_glucose_correlation, h]
  · intro onEx offEx hOn hOff h3 hOnne hOffne
    subst hOn
    subst hOff
    simp only [analyze_exercise_glucose_correlation]
    rw [if_neg (by omega), List.isEmpty_eq_false.mpr hOnne,
      List.isEmpty_eq_false.mpr hOffne]
    rfl
  · intro f
    simp [exercise_glucose_strong]

/-- **C8, witness.**  The theorem applied to two readings of 100 and 108 on
distinct days and three exercise sessions on the first day: the partitions
are non-empty singletons, the means differ by 8 ≤ 10, and indeed no finding
is produced; and the strength selector evaluated at a concrete finding with
difference 25 > 20 is "Strong". -/
theorem exercise_glucose_correlation_spec_witness :
    analyze_exercise_glucose_correlation
      [⟨0, 100⟩, ⟨1440, 108⟩] [⟨0⟩, ⟨1⟩, ⟨2⟩] = none ∧
    exercise_glucose_strong ⟨115, 140⟩ = true := by
  constructor
  · have h := (exercise_glucose_correlation_spec
      [⟨0, 100⟩, ⟨1440, 108⟩] [⟨0⟩, ⟨1⟩, ⟨2⟩]).2.1
      ([⟨0, 100⟩, ⟨1440, 108⟩].filter (fun g =>
        (([⟨0⟩, ⟨1⟩, ⟨2⟩] : List ExerciseRecord).map
          (fun e => dateOf e.timestamp)).contains (dateOf g.timestamp)))
      ([⟨0, 100⟩, ⟨1440, 108⟩].filter (fun g =>
        !(([⟨0⟩, ⟨1⟩, ⟨2⟩] : List ExerciseRecord).map
          (fun e => dateOf e.timestamp)).contains (dateOf g.timestamp)))
      rfl rfl (by decide) (by decide) (by decide)
    rw [h]
    norm_num [mean, dateOf, List.filter]
  · exact (exercise_glucose_correlation_spec [] []).2.2 ⟨115, 140⟩ |>.mpr
      (by norm_num)

/-! ## Claim C9 -/

/-- **C9.** `analyze_patterns` returns the fixed "not enough data" message
whenever there are zero glucose readings, and the fixed "need more data,
keep logging" message when at least one reading exists but all four
findings are gated out; in both cases the result is the same for every
completion service `complete` — the fixed message does not depend on it, so
the Text Completion Service is not called at all. -/
theorem analyze_patterns_gates (glucose : List GlucoseReading)
    (meals : List MealRecord) (exercise : List ExerciseRecord)
    (complete : String → Except String String) :
    (glucose = [] → analyze_patterns glucose meals exercise complete =
      Except.ok "Not enough data yet. Log more glucose readings to see patterns.") ∧
    (glucose ≠ [] →
      analyze_exercise_glucose_correlation glucose exercise = none →
      analyze_meal_glucose_correlation glucose meals = none →
      analyze_time_patterns glucose = none →
      analyze_exercise_timing glucose exercise = none →
      analyze_patterns glucose meals exercise complete =
        Except.ok "I need more data to find meaningful patterns. Keep logging for at least 7 days!") := by
  constructor
  · intro h
    subst h
    rfl
  · intro hne h1 h2 h3 h4
    simp [analyze_patterns, pattern_findings, h1, h2, h3, h4,
      List.isEmpty_eq_false.mpr hne]

/-- **C9, witness.**  The theorem applied to an empty log and to a log with
one glucose reading and nothing else (every finding gated out by its
sample-size precondition), under a completion service that always fails —
the fixed messages come back untouched. -/
theorem analyze_patterns_gates_witness :
    analyze_patterns [] [] [] (fun _ => Except.error "service down") =
      Except.ok "Not enough data yet. Log more glucose readings to see patterns." ∧
    analyze_patterns [⟨0, 100⟩] [] [] (fun _ => Except.error "service down") =
      Except.ok "I need more data to find meaningful patterns. Keep logging for at least 7 days!" :=
  ⟨(analyze_patterns_gates [] [] [] _).1 rfl,
   (analyze_patterns_gates [⟨0, 100⟩] [] [] _).2
      (by decide) rfl rfl rfl rfl⟩

/-! ## Claim C4

Concrete data on which the exercise–glucose finding fires, so that
`analyze_patterns` reaches its unguarded completion call: one reading of
100 on the exercise day and two readings of 150 the next day. -/

/-- Glucose rows: 100 on day 0, 150 twice on day 1. -/
def sample_glucose : List GlucoseReading :=
  [⟨0, 100⟩, ⟨1440, 150⟩, ⟨1500, 150⟩]

/-- Exercise rows: three sessions on day 0. -/
def sample_exercise : List ExerciseRecord := [⟨0⟩, ⟨1⟩, ⟨2⟩]

lemma sample_exercise_finding :
    analyze_exercise_glucose_correlation sample_glucose sample_exercise =
      some ⟨100, 150⟩ := by
  simp [analyze_exercise_glucose_correlation, sample_glucose, sample_exercise,
    dateOf, List.filter]
  norm_num [mean]

lemma sample_pattern_findings :
    pattern_findings sample_glucose [] sample_exercise =
      [render_exercise_glucose ⟨100, 150⟩] := by
  have h2 : analyze_meal_glucose_correlation sample_glucose [] = none := rfl
  have h3 : analyze_time_patterns sample_glucose = none := rfl
  have h4 : analyze_exercise_timing sample_glucose sample_exercise = none := rfl
  simp [pattern_findings, sample_exercise_finding, h2, h3, h4]

/-- **C4, counterexample.**  A completion-service failure at the
`analyze_patterns` call site is *not* converted to a degraded textual
response: on data where a finding fires, `analyze_patterns` under an
always-failing service returns the propagated exception itself, and so does
`get_specific_insight` (here via its second, unguarded completion call). -/
theorem pattern_completion_failure_escapes :
    analyze_patterns sample_glucose [] sample_exercise
      (fun _ => Except.error "boom") = Except.error "boom" ∧
    get_specific_insight [] [] [] (fun _ => Except.error "boom")
      "Why is my glucose high?" = Except.error "boom" := by
  constructor
  · have hne : sample_glucose.isEmpty = false := rfl
    simp [analyze_patterns, sample_pattern_findings, hne]
  · rfl

/-- **C4, amended.**  Completion-service failures are caught and converted
to a templated apology embedding the failure description at the
Diabetes-Agent, Fitness-Agent, Nutrition-Agent, router and
coordinator-synthesis call sites — but not at the two call sites inside the
Pattern Analysis Agent: `analyze_patterns` propagates the failure whenever
its data admits at least one finding, and `get_specific_insight` propagates
it on every input. -/
theorem completion_failure_call_sites (glucose : List GlucoseReading)
    (meals : List MealRecord) (exercise : List ExerciseRecord)
    (e question : String) :
    diabetes_narrative (Except.error e) =
      "I'm having trouble processing that right now. Error: " ++ e ∧
    fitness_narrative (Except.error e) =
      "I'm having trouble processing that right now. Error: " ++ e ∧
    nutrition_narrative (Except.error e) =
      "I'm having trouble processing that right now. Error: " ++ e ∧
    coordinate_synthesis (Except.error e) =
      "I'm having trouble coordinating the analysis. Error: " ++ e ∧
    route (Except.error e) = "GENERAL" ∧
    (glucose ≠ [] → pattern_findings glucose meals exercise ≠ [] →
      analyze_patterns glucose meals exercise (fun _ => Except.error e) =
        Except.error e) ∧
    get_specific_insight glucose meals exercise (fun _ => Except.error e)
      question = Except.error e := by
  refine ⟨rfl, rfl, rfl, rfl, rfl, ?_, ?_⟩
  · intro h1 h2
    simp [analyze_patterns, List.isEmpty_eq_false.mpr h1,
      List.isEmpty_eq_false.mpr h2]
  · unfold get_specific_insight
    cases hg : glucose.isEmpty <;>
      cases hp : (pattern_findings glucose meals exercise).isEmpty <;>
      simp [analyze_patterns, hg, hp]

/-- **C4, amended, witness.**  The amended theorem applied to the sample
data (one firing finding) and failure description "boom": the apologies
come out of the guarded call sites, and `analyze_patterns` propagates. -/
theorem completion_failure_call_sites_witness :
    analyze_patterns sample_glucose [] sample_exercise
      (fun _ => Except.error "svc") = Except.error "svc" :=
  (completion_failure_call_sites sample_glucose [] sample_exercise
      "svc" "q").2.2.2.2.2.1
    (by simp [sample_glucose])
    (by simp [sample_pattern_findings])

end HealthAI
